import Mathlib

/-!
Verification of the client-side request pipeline of the JAC Learning
Platform front end (`src/frontend/src/services/api.ts`): the retry
strategy, the TTL cache, the error handler, the best-effort request
optimization step, and the request-metrics buffer. Each definition is a
shallow embedding of the corresponding TypeScript declaration; times are
milliseconds as `Nat`, JavaScript `Map`s become functions
`String → Option _`, and `localStorage` plus `window.location` become an
explicit `BrowserState` record.
-/

/-- Static configuration (`CONFIG.RETRY_ATTEMPTS = 3` in api.ts). -/
def CONFIG_RETRY_ATTEMPTS : Nat := 3

/-- Static configuration (`CONFIG.RETRY_DELAY = 1000` in api.ts). -/
def CONFIG_RETRY_DELAY : Nat := 1000

/-- The slice of an `AxiosError` the pipeline inspects: the optional HTTP
status of the response (`error.response?.status`) and the optional
network error code string (`error.code`). -/
structure AxiosErr where
  status : Option Nat
  code : Option String
deriving DecidableEq, Repr

/-- The network-error test from `RetryStrategy.shouldRetry`:
`error.code === 'ECONNRESET' || error.code === 'ETIMEDOUT' || error.code === 'ECONNREFUSED'`. -/
def isRetryableNetworkCode (code : Option String) : Bool :=
  code == some "ECONNRESET" || code == some "ETIMEDOUT" || code == some "ECONNREFUSED"

/-- `RetryStrategy.calculateBackoff`:
`Math.min(CONFIG.RETRY_DELAY * Math.pow(2, attempt), 30000)`. -/
def RetryStrategy.calculateBackoff (attempt : Nat) : Nat :=
  min (CONFIG_RETRY_DELAY * 2 ^ attempt) 30000

/-- `RetryStrategy.getDelay`, which just forwards to `calculateBackoff`. -/
def RetryStrategy.getDelay (attempt : Nat) : Nat :=
  RetryStrategy.calculateBackoff attempt

/-- `RetryStrategy.shouldRetry(error, attempt)`.  The early returns of
the TypeScript body become nested conditionals; when a response status is
present but matches none of the three status tests, control falls
through to the network-code check, exactly as in the source. -/
def RetryStrategy.shouldRetry (error : AxiosErr) (attempt : Nat) : Bool :=
  if attempt ≥ CONFIG_RETRY_ATTEMPTS then
    false
  else
    match error.status with
    | some status =>
      if 400 ≤ status ∧ status < 500 ∧ status ≠ 429 then false
      else if 500 ≤ status then true
      else if status = 429 then true
      else isRetryableNetworkCode error.code
    | none => isRetryableNetworkCode error.code

/-- `EducationalCache.DEFAULT_TTL = 5 * 60 * 1000`. -/
def EducationalCache.DEFAULT_TTL : Nat := 5 * 60 * 1000

/-- JavaScript's `String.prototype.startsWith` on character lists, the
prefix step of `includes`. -/
def hasPrefixChars : List Char → List Char → Bool
  | [], _ => true
  | _ :: _, [] => false
  | p :: ps, c :: cs => p == c && hasPrefixChars ps cs

/-- Substring occurrence on character lists: the pattern occurs at some
position of the text. -/
def hasSubstrChars (pat : List Char) : List Char → Bool
  | [] => hasPrefixChars pat []
  | c :: cs => hasPrefixChars pat (c :: cs) || hasSubstrChars pat cs

/-- JavaScript's `key.includes(pat)`. -/
def jsIncludes (s pat : String) : Bool :=
  hasSubstrChars pat.toList s.toList

/-- `EducationalCache.getOptimalTTL(key, data)`.  The `data` argument of
the source is never read by its body, so it is omitted here; the TTL is
computed from the key alone by `String.includes` tests, in source order:
learning content first, then user data, then assessments, else the
default. -/
def EducationalCache.getOptimalTTL (key : String) : Nat :=
  if jsIncludes key "learning" || jsIncludes key "module" then
    15 * 60 * 1000
  else if jsIncludes key "user" || jsIncludes key "profile" then
    2 * 60 * 1000
  else if jsIncludes key "assessment" || jsIncludes key "quiz" then
    10 * 60 * 1000
  else
    EducationalCache.DEFAULT_TTL

/-- One entry of the cache `Map`: `{ data, expires, metadata }`.  The
`metadata` payload is typed `any` in the source; the claims only ever
pass a tag string, so it is modelled as `Option String`. -/
structure CacheEntry (α : Type) where
  data : α
  expires : Nat
  metadata : Option String
deriving DecidableEq

/-- The cache `Map<string, {data, expires, metadata}>`, as a lookup
function. -/
def Cache (α : Type) : Type := String → Option (CacheEntry α)

/-- The empty cache (a fresh `Map`). -/
def emptyCache (α : Type) : Cache α := fun _ => none

/-- The TTL chosen by `EducationalCache.set`:
`customTTL || this.getOptimalTTL(key, data)`.  JavaScript `||` treats a
passed `0` as falsy, so a zero custom TTL falls back to the optimal TTL. -/
def EducationalCache.ttlOf (customTTL : Option Nat) (key : String) : Nat :=
  match customTTL with
  | some n => if n = 0 then EducationalCache.getOptimalTTL key else n
  | none => EducationalCache.getOptimalTTL key

/-- `EducationalCache.set(key, data, metadata?, customTTL?)` at current
time `now` (`Date.now()`): stores `{ data, expires: now + ttl, metadata }`
under `key`, overwriting any previous entry. -/
def EducationalCache.set {α : Type} (cache : Cache α) (key : String) (data : α)
    (metadata : Option String) (customTTL : Option Nat) (now : Nat) : Cache α :=
  let expires := now + EducationalCache.ttlOf customTTL key
  fun k => if k = key then some ⟨data, expires, metadata⟩ else cache k

/-- `EducationalCache.get(key)` at current time `now`: returns the stored
data unless the entry is missing or `now > expires`, in which case the
entry is deleted and the result is `none`.  The returned pair is
(result, cache after the call). -/
def EducationalCache.get {α : Type} (cache : Cache α) (key : String) (now : Nat) :
    Option α × Cache α :=
  match cache key with
  | none => (none, cache)
  | some cached =>
    if now > cached.expires then
      (none, fun k => if k = key then none else cache k)
    else
      (some cached.data, cache)

/-- The `educationalContext` enum of `EducationalErrorContext`. -/
inductive EduContext where
  | learning
  | assessment
  | gamification
  | search
  | authentication
deriving DecidableEq, Repr

/-- The `severity` enum of `EducationalErrorContext`. -/
inductive ErrSeverity where
  | low
  | medium
  | high
  | critical
deriving DecidableEq, Repr

/-- `EducationalErrorContext` (the fields the pipeline branches on; the
optional resource-id fields only feed log output). -/
structure EducationalErrorContext where
  educationalContext : EduContext
  severity : ErrSeverity
  recoverable : Bool
deriving DecidableEq, Repr

/-- The browser-visible state touched by the error handler and the
request interceptor: the `localStorage` keys the pipeline reads or
writes, and `window.location.href`. -/
structure BrowserState where
  token : Option String
  accessToken : Option String
  currentUser : Option String
  refreshToken : Option String
  href : String
deriving DecidableEq, Repr

/-- JavaScript truthiness of a `localStorage.getItem` result: `null` and
the empty string are falsy. -/
def jsTruthy (s : Option String) : Option String :=
  match s with
  | none => none
  | some str => if str.isEmpty then none else some str

/-- The bearer-token attachment of the request interceptor
(`EnterpriseAPIClient.setupInterceptors`):
`const token = localStorage.getItem('token') || localStorage.getItem('access_token');
if (token) config.headers.Authorization = Bearer ...`. -/
def requestAuthHeader (st : BrowserState) : Option String :=
  match jsTruthy st.token with
  | some tk => some ("Bearer " ++ tk)
  | none =>
    match jsTruthy st.accessToken with
    | some tk => some ("Bearer " ++ tk)
    | none => none

/-- `EducationalErrorHandler.handleAuthenticationError`: on status 401,
remove the `token` and `current_user` storage keys and set
`window.location.href = '/login'`; otherwise do nothing. -/
def EducationalErrorHandler.handleAuthenticationError (error : AxiosErr)
    (st : BrowserState) : BrowserState :=
  if error.status = some 401 then
    { st with token := none, currentUser := none, href := "/login" }
  else
    st

/-- `EducationalErrorHandler.handleError(error, context)`.  The logging
and analytics emission do not touch the modelled browser state; the
`switch` dispatches on the educational context, where only the
authentication handler mutates state (the other four handlers only call
`console.warn`); afterwards the original error is thrown
(`throw error`, return type `Promise<never>`), modelled as
`Except.error`.  The result is (browser state after side effects,
outcome delivered to the caller). -/
def EducationalErrorHandler.handleError (error : AxiosErr)
    (context : EducationalErrorContext) (st : BrowserState) :
    BrowserState × Except AxiosErr Unit :=
  let st' :=
    match context.educationalContext with
    | EduContext.learning => st
    | EduContext.assessment => st
    | EduContext.gamification => st
    | EduContext.search => st
    | EduContext.authentication =>
      EducationalErrorHandler.handleAuthenticationError error st
  (st', Except.error error)

/-- The user-profile slice read by `EducationalAI.optimizeAPIRequest`
(`userProfile.learning_style`). -/
structure UserProfile where
  learning_style : Option String
deriving DecidableEq, Repr

/-- The request-configuration slice transformed by the optimization
step. Header maps are modelled as association lists in which a later
binding overrides an earlier one, matching object-spread semantics. -/
structure ReqConfig where
  url : String
  method : String
  timeout : Nat
  headers : List (String × String)
deriving DecidableEq, Repr

/-- `EducationalAI.optimizeAPIRequest(request)`.  The body parses the
locally stored `user_profile` JSON inside a `try`; `parsedProfile` is the
outcome of that parse (`Except.error` when `JSON.parse` throws).  On
success the timeout is 45000 for the `visual` learning style and 30000
otherwise, and two headers are spread onto the request's headers; on any
error the `catch` returns the original request unchanged. -/
def EducationalAI.optimizeAPIRequest (parsedProfile : Except Unit UserProfile)
    (request : ReqConfig) : ReqConfig :=
  match parsedProfile with
  | Except.error _ => request
  | Except.ok userProfile =>
    let timeout := if userProfile.learning_style = some "visual" then 45000 else 30000
    { request with
        timeout := timeout
        headers := request.headers ++
          [("X-User-Learning-Style", userProfile.learning_style.getD "mixed"),
           ("X-AI-Optimization", "enabled")] }

/-- `APIRequestMetrics` from api.ts (`error` renamed `errorMessage`,
since it stores `error.message`). -/
structure APIRequestMetrics where
  method : String
  url : String
  startTime : Nat
  endTime : Option Nat
  duration : Option Nat
  status : Option Nat
  success : Bool
  errorMessage : Option String
deriving DecidableEq, Repr

/-- The metric append performed by both response interceptors:
`this.requestMetrics.push(metrics)` — a plain push with no capacity
check. -/
def EnterpriseAPIClient.pushRequestMetric (requestMetrics : List APIRequestMetrics)
    (m : APIRequestMetrics) : List APIRequestMetrics :=
  requestMetrics ++ [m]

/-- The `request_history` field of `EnterpriseAPIClient.exportAnalytics`:
`this.requestMetrics.slice(-100)`, the last 100 completed metrics. -/
def EnterpriseAPIClient.exportRequestHistory (requestMetrics : List APIRequestMetrics) :
    List APIRequestMetrics :=
  requestMetrics.drop (requestMetrics.length - 100)

/-- A concrete completed metric, used to drive the buffer on concrete
inputs. -/
def sampleMetric (i : Nat) : APIRequestMetrics :=
  ⟨"get", "/learning/paths", i, some (i + 1), some 1, some 200, true, none⟩

/-- Appending one completed metric per element of a list grows the
buffer by the list's length: no eviction ever happens. -/
theorem pushRequestMetric_fold_length (l : List Nat) (init : List APIRequestMetrics) :
    (l.foldl (fun buf i => EnterpriseAPIClient.pushRequestMetric buf (sampleMetric i))
      init).length = init.length + l.length := by
  induction l generalizing init with
  | nil => simp
  | cons a as ih =>
    rw [List.foldl_cons, ih]
    simp only [EnterpriseAPIClient.pushRequestMetric, List.length_append,
      List.length_cons, List.length_nil]
    omega

/-- C1: for every failed attempt carrying an HTTP status `s` and attempt
number `n`: if `n ≥ maxAttempts` (3) then `shouldRetry` is false
regardless of status; otherwise it is false for every 4xx status except
429, true for 429, and true for every 5xx status. -/
theorem shouldRetry_http_policy (e : AxiosErr) (n s : Nat) (hs : e.status = some s) :
    (n ≥ 3 → RetryStrategy.shouldRetry e n = false) ∧
    (n < 3 →
      ((400 ≤ s ∧ s < 500 ∧ s ≠ 429) → RetryStrategy.shouldRetry e n = false) ∧
      (s = 429 → RetryStrategy.shouldRetry e n = true) ∧
      (500 ≤ s → RetryStrategy.shouldRetry e n = true)) := by
  simp only [RetryStrategy.shouldRetry, CONFIG_RETRY_ATTEMPTS, hs]
  constructor
  · intro h
    rw [if_pos h]
  · intro hn
    rw [if_neg (by omega)]
    refine ⟨?_, ?_, ?_⟩
    · intro h4
      rw [if_pos h4]
    · intro h429
      subst h429
      rw [if_neg (by omega), if_neg (by omega), if_pos rfl]
    · intro h5
      rw [if_neg (by omega), if_pos h5]

/-- Witness for C1 at status 500, 404 and 429 with attempt 0, and at
attempt 3 regardless of status. -/
theorem shouldRetry_http_policy_witness :
    RetryStrategy.shouldRetry ⟨some 500, none⟩ 0 = true ∧
    RetryStrategy.shouldRetry ⟨some 404, none⟩ 0 = false ∧
    RetryStrategy.shouldRetry ⟨some 429, none⟩ 0 = true ∧
    RetryStrategy.shouldRetry ⟨some 500, none⟩ 3 = false :=
  ⟨((shouldRetry_http_policy ⟨some 500, none⟩ 0 500 rfl).2 (by omega)).2.2 (by omega),
   ((shouldRetry_http_policy ⟨some 404, none⟩ 0 404 rfl).2 (by omega)).1 (by omega),
   ((shouldRetry_http_policy ⟨some 429, none⟩ 0 429 rfl).2 (by omega)).2.1 rfl,
   (shouldRetry_http_policy ⟨some 500, none⟩ 3 500 rfl).1 (by omega)⟩

/-- C4: the retry delay is exponential backoff `1000 * 2 ^ n`, capped at
30000 ms; hence it is monotone in the attempt number and bounded by the
cap. -/
theorem getDelay_backoff (n : Nat) :
    RetryStrategy.getDelay n = min (1000 * 2 ^ n) 30000 ∧
    RetryStrategy.getDelay n ≤ RetryStrategy.getDelay (n + 1) ∧
    RetryStrategy.getDelay n ≤ 30000 := by
  refine ⟨rfl, ?_, ?_⟩
  · exact min_le_min
      (Nat.mul_le_mul le_rfl (Nat.pow_le_pow_right (by norm_num) (Nat.le_succ n)))
      le_rfl
  · exact min_le_right _ _

/-- C5 counterexample: a failure with no HTTP status and no network
error code, at attempt 0 < maxAttempts, is NOT retried — refuting the
claim that every no-status failure is retried. -/
theorem shouldRetry_nostatus_counterexample :
    (0 : Nat) < CONFIG_RETRY_ATTEMPTS ∧
    RetryStrategy.shouldRetry ⟨none, none⟩ 0 = false := by
  decide

/-- C5 amended: a failure carrying no HTTP status is retried exactly
when the attempt number is below maxAttempts AND the error code is one
of ECONNRESET, ETIMEDOUT, ECONNREFUSED; any other no-status failure is
not retried. -/
theorem shouldRetry_network_amended (e : AxiosErr) (n : Nat) (hs : e.status = none) :
    RetryStrategy.shouldRetry e n = true ↔
      (n < 3 ∧ (e.code = some "ECONNRESET" ∨ e.code = some "ETIMEDOUT" ∨
        e.code = some "ECONNREFUSED")) := by
  simp only [RetryStrategy.shouldRetry, CONFIG_RETRY_ATTEMPTS, hs]
  by_cases h : n ≥ 3
  · rw [if_pos h]
    simp only [Bool.false_eq_true, false_iff, not_and]
    intro hn
    omega
  · rw [if_neg h]
    have hn : n < 3 := by omega
    simp [isRetryableNetworkCode, hn, Bool.or_eq_true, beq_iff_eq, or_assoc]

/-- Witness for the amended C5: an ECONNRESET failure with no status is
retried at attempt 0. -/
theorem shouldRetry_network_amended_witness :
    RetryStrategy.shouldRetry ⟨none, some "ECONNRESET"⟩ 0 = true :=
  (shouldRetry_network_amended ⟨none, some "ECONNRESET"⟩ 0 rfl).mpr
    (by exact ⟨by omega, Or.inl rfl⟩)

/-- C2: immediately after `set(k, v)` with no custom TTL, `get(k)`
returns `v`; once the current time is strictly past the stored expiry
(`now + getOptimalTTL k`), `get(k)` returns `none`, evicts the entry,
and the evicted cache holds nothing under `k` — a miss after expiry is
indistinguishable from a miss on an unseen key, and `get` never returns
a value past its TTL. -/
theorem cache_set_get_ttl {α : Type} (c : Cache α) (k : String) (v : α)
    (tag : Option String) (now t : Nat)
    (ht : now + EducationalCache.getOptimalTTL k < t) :
    (EducationalCache.get (EducationalCache.set c k v tag none now) k now).1 = some v ∧
    (EducationalCache.get (EducationalCache.set c k v tag none now) k t).1 = none ∧
    (EducationalCache.get (EducationalCache.set c k v tag none now) k t).2 k = none := by
  have hset : (EducationalCache.set c k v tag none now) k
      = some ⟨v, now + EducationalCache.getOptimalTTL k, tag⟩ := by
    simp [EducationalCache.set, EducationalCache.ttlOf]
  refine ⟨?_, ?_, ?_⟩
  · simp only [EducationalCache.get, hset]
    rw [if_neg (by omega)]
  · simp only [EducationalCache.get, hset]
    rw [if_pos (by omega)]
  · simp only [EducationalCache.get, hset]
    rw [if_pos (by omega)]
    simp

/-- Witness for C2 at key "k", value 7, set at time 0 (default TTL
300000 ms), read back at times 0 and 300001. -/
theorem cache_set_get_ttl_witness :
    (EducationalCache.get (EducationalCache.set (emptyCache Nat) "k" 7 none none 0)
      "k" 0).1 = some 7 ∧
    (EducationalCache.get (EducationalCache.set (emptyCache Nat) "k" 7 none none 0)
      "k" 300001).1 = none ∧
    (EducationalCache.get (EducationalCache.set (emptyCache Nat) "k" 7 none none 0)
      "k" 300001).2 "k" = none :=
  cache_set_get_ttl (emptyCache Nat) "k" 7 none 0 300001 (by decide)

/-- C3 counterexample: `set("k", 0, "user")` at time 0 with no custom
TTL stores expiry 300000 (the 5-minute default inferred from the key
"k"), not 0 + 120000 as the claim's tag-determined 2-minute TTL for a
"user" tag would require — the `metadata` tag argument is never
consulted by `getOptimalTTL`. -/
theorem ttl_ignores_tag_counterexample :
    (EducationalCache.set (emptyCache Nat) "k" 0 (some "user") none 0) "k"
      = some ⟨0, 300000, some "user"⟩ ∧
    (300000 : Nat) ≠ 0 + 2 * 60 * 1000 := by
  refine ⟨by decide, by norm_num⟩

/-- C3 amended: the TTL of a default `set` is inferred from the key
alone (the tag/metadata argument is ignored): the stored expiry is
`now + getOptimalTTL key`; and for every key containing "user" but
neither "learning" nor "module", the TTL is strictly shorter than for
every key containing "learning" (2 min vs 15 min). -/
theorem ttl_key_based_amended {α : Type} (c : Cache α) (k : String) (v : α)
    (tag : Option String) (now : Nat) (k1 k2 : String)
    (h1 : jsIncludes k1 "user" = true)
    (h2 : jsIncludes k1 "learning" = false)
    (h3 : jsIncludes k1 "module" = false)
    (h4 : jsIncludes k2 "learning" = true) :
    (EducationalCache.set c k v tag none now) k
      = some ⟨v, now + EducationalCache.getOptimalTTL k, tag⟩ ∧
    EducationalCache.getOptimalTTL k1 < EducationalCache.getOptimalTTL k2 := by
  constructor
  · simp [EducationalCache.set, EducationalCache.ttlOf]
  · have e1 : EducationalCache.getOptimalTTL k1 = 2 * 60 * 1000 := by
      simp [EducationalCache.getOptimalTTL, h1, h2, h3]
    have e2 : EducationalCache.getOptimalTTL k2 = 15 * 60 * 1000 := by
      simp [EducationalCache.getOptimalTTL, h4]
    rw [e1, e2]
    norm_num

/-- Witness for the amended C3 at key "x" and comparison keys "user_1"
versus "learning_1". -/
theorem ttl_key_based_amended_witness :
    (EducationalCache.set (emptyCache Nat) "x" 7 none none 0) "x"
      = some ⟨7, 0 + EducationalCache.getOptimalTTL "x", none⟩ ∧
    EducationalCache.getOptimalTTL "user_1" < EducationalCache.getOptimalTTL "learning_1" :=
  ttl_key_based_amended (emptyCache Nat) "x" 7 none 0 "user_1" "learning_1"
    (by decide) (by decide) (by decide) (by decide)

/-- C6: for every failed request, after context dispatch and the
per-domain side effects, `handleError` always re-raises the original
error to the caller — the outcome is `Except.error` carrying exactly the
incoming error, never a normal return and never a different failure. -/
theorem handleError_rethrows (error : AxiosErr) (context : EducationalErrorContext)
    (st : BrowserState) :
    (EducationalErrorHandler.handleError error context st).2 = Except.error error :=
  rfl

/-- C7: a failure classified into the authentication domain with HTTP
status 401 clears the stored token and current user, redirects to
`/login`, and — since no `access_token` storage key is ever written
anywhere in this repository, so that key is absent — the next outbound
request carries no Authorization header. -/
theorem auth_401_clears_credentials (error : AxiosErr)
    (context : EducationalErrorContext) (st : BrowserState)
    (hctx : context.educationalContext = EduContext.authentication)
    (hstatus : error.status = some 401)
    (hacc : st.accessToken = none) :
    (EducationalErrorHandler.handleError error context st).1.token = none ∧
    (EducationalErrorHandler.handleError error context st).1.currentUser = none ∧
    (EducationalErrorHandler.handleError error context st).1.href = "/login" ∧
    requestAuthHeader (EducationalErrorHandler.handleError error context st).1 = none := by
  have h1 : (EducationalErrorHandler.handleError error context st).1
      = { st with token := none, currentUser := none, href := "/login" } := by
    simp [EducationalErrorHandler.handleError, hctx,
      EducationalErrorHandler.handleAuthenticationError, hstatus]
  rw [h1]
  refine ⟨rfl, rfl, rfl, ?_⟩
  simp [requestAuthHeader, jsTruthy, hacc]

/-- Witness for C7: a 401 on the authentication domain from a state that
held a token and a user. -/
theorem auth_401_clears_credentials_witness :
    (EducationalErrorHandler.handleError ⟨some 401, none⟩
      ⟨EduContext.authentication, ErrSeverity.high, false⟩
      ⟨some "tok", none, some "u", some "r", "/home"⟩).1.token = none ∧
    (EducationalErrorHandler.handleError ⟨some 401, none⟩
      ⟨EduContext.authentication, ErrSeverity.high, false⟩
      ⟨some "tok", none, some "u", some "r", "/home"⟩).1.currentUser = none ∧
    (EducationalErrorHandler.handleError ⟨some 401, none⟩
      ⟨EduContext.authentication, ErrSeverity.high, false⟩
      ⟨some "tok", none, some "u", some "r", "/home"⟩).1.href = "/login" ∧
    requestAuthHeader (EducationalErrorHandler.handleError ⟨some 401, none⟩
      ⟨EduContext.authentication, ErrSeverity.high, false⟩
      ⟨some "tok", none, some "u", some "r", "/home"⟩).1 = none :=
  auth_401_clears_credentials ⟨some 401, none⟩
    ⟨EduContext.authentication, ErrSeverity.high, false⟩
    ⟨some "tok", none, some "u", some "r", "/home"⟩ rfl rfl rfl

/-- C8: the best-effort optimization step is a total function: when the
profile parse fails it returns the original request unchanged, and when
it succeeds it changes only the timeout and appends exactly the two
extra headers, preserving the request's url and method — it never throws
and never blocks the primary request. -/
theorem optimizeAPIRequest_best_effort :
    (∀ r : ReqConfig, EducationalAI.optimizeAPIRequest (Except.error ()) r = r) ∧
    (∀ (p : UserProfile) (r : ReqConfig),
      (EducationalAI.optimizeAPIRequest (Except.ok p) r).url = r.url ∧
      (EducationalAI.optimizeAPIRequest (Except.ok p) r).method = r.method ∧
      (EducationalAI.optimizeAPIRequest (Except.ok p) r).headers =
        r.headers ++
          [("X-User-Learning-Style", p.learning_style.getD "mixed"),
           ("X-AI-Optimization", "enabled")]) :=
  ⟨fun _ => rfl, fun _ _ => ⟨rfl, rfl, rfl⟩⟩

/-- C9 counterexample: pushing 101 completed metrics into an initially
empty buffer leaves 101 entries — the buffer is NOT bounded by a
capacity of 100 and no oldest entry is ever evicted. -/
theorem metrics_unbounded_counterexample :
    100 < ((List.range 101).foldl
      (fun buf i => EnterpriseAPIClient.pushRequestMetric buf (sampleMetric i))
      []).length := by
  rw [pushRequestMetric_fold_length]
  simp

/-- C9 amended: every completed metric is appended to an unbounded list
(each push grows the buffer by exactly one, with no eviction); only the
analytics export is truncated to the last 100 entries. -/
theorem metrics_append_amended (buf : List APIRequestMetrics) (m : APIRequestMetrics) :
    EnterpriseAPIClient.pushRequestMetric buf m = buf ++ [m] ∧
    (EnterpriseAPIClient.pushRequestMetric buf m).length = buf.length + 1 ∧
    (EnterpriseAPIClient.exportRequestHistory buf).length = min buf.length 100 := by
  refine ⟨rfl, by simp [EnterpriseAPIClient.pushRequestMetric], ?_⟩
  unfold EnterpriseAPIClient.exportRequestHistory
  rw [List.length_drop]
  omega

/-- C10: a key containing both a learning marker ("learning" or
"module") and a user marker ("user" or "profile") gets the 15-minute
learning TTL, not the 2-minute user TTL, because the learning-content
branch of `getOptimalTTL` is evaluated first. -/
theorem learning_marker_precedence {α : Type} (key : String)
    (hl : jsIncludes key "learning" = true ∨ jsIncludes key "module" = true)
    (hu : jsIncludes key "user" = true ∨ jsIncludes key "profile" = true)
    (c : Cache α) (v : α) (tag : Option String) (now : Nat) :
    EducationalCache.getOptimalTTL key = 15 * 60 * 1000 ∧
    (EducationalCache.set c key v tag none now) key
      = some ⟨v, now + 15 * 60 * 1000, tag⟩ := by
  have e : EducationalCache.getOptimalTTL key = 15 * 60 * 1000 := by
    rcases hl with h | h <;> simp [EducationalCache.getOptimalTTL, h]
  exact ⟨e, by simp [EducationalCache.set, EducationalCache.ttlOf, e]⟩

/-- Witness for C10 at the dual-marker key "user_learning". -/
theorem learning_marker_precedence_witness :
    EducationalCache.getOptimalTTL "user_learning" = 15 * 60 * 1000 ∧
    (EducationalCache.set (emptyCache Nat) "user_learning" 7 none none 0) "user_learning"
      = some ⟨7, 0 + 15 * 60 * 1000, none⟩ :=
  learning_marker_precedence "user_learning" (Or.inl (by decide)) (Or.inl (by decide))
    (emptyCache Nat) 7 none 0
